import Mathlib

/-!
Verification of the eemail SMTP server core.

This file gives a shallow embedding of the SMTP session state machine in
`src/lib/protocols/smtp/server` (the modular handler and its command
modules), of the monolithic handler in
`src/components/smtp/src/message_handler.rs`, of the account resolver in
`src/components/configurator/src/lib.rs`, and of the mailbox-delivery
section of `src/components/smtp/src/lib.rs`.

Modelling conventions:
 - A session's input is the list of lines returned by successive
   `read_line` calls, each including its terminator (`...\r\n`).
 - Each `write_all` call is recorded as one element of an output list.
   The write half of the socket carries an open/closed flag; writing to a
   closed half fails, as a `send` after `shutdown(SHUT_WR)` does.
 - External crates (base64, yescrypt's hash parsing and verification,
   UTF-8 lossy decoding, the TLS acceptor) are parameters collected in
   `Ext`; the session logic is a pure function of those parameters.
 - Rust `?`-propagation of an error is the `errored` outcome; a Rust
   panic (index out of bounds, `unwrap` on `None`) is the `panicked`
   outcome.
-/

namespace Eemail

/-- Mirror of Rust `line.replace("\r\n", "\n")`: replace every
(non-overlapping, left-to-right) occurrence of CRLF by LF. -/
def crlfToLf : List Char → List Char
  | [] => []
  | '\r' :: '\n' :: rest => '\n' :: crlfToLf rest
  | c :: rest => c :: crlfToLf rest

/-- The in-memory normalisation applied to each DATA line. -/
def normLine (line : String) : String := ⟨crlfToLf line.data⟩

/-- Mirror of Rust `str::trim_end`: drop trailing whitespace. -/
def rtrim (s : String) : String := ⟨(s.data.reverse.dropWhile Char.isWhitespace).reverse⟩

/-- Worker for `tokenizeLine`; `acc` holds the current token reversed. -/
def wsTokens (acc : List Char) : List Char → List String
  | [] => if acc.isEmpty then [] else [⟨acc.reverse⟩]
  | c :: cs =>
    if c.isWhitespace then
      if acc.isEmpty then wsTokens [] cs else (⟨acc.reverse⟩ : String) :: wsTokens [] cs
    else wsTokens (c :: acc) cs

/-- Mirror of Rust `line.trim_end().split_whitespace()`: the list of
maximal non-whitespace runs of the line. -/
def tokenizeLine (line : String) : List String := wsTokens [] line.data

/-- Mirror of Rust `str::strip_prefix`. -/
def stripPrefixOpt (s p : String) : Option String :=
  if p.data.isPrefixOf s.data then some ⟨s.data.drop p.data.length⟩ else none

/-- Mirror of Rust `str::strip_suffix`. -/
def stripSuffixOpt (s p : String) : Option String :=
  if p.data.isSuffixOf s.data then some ⟨s.data.take (s.data.length - p.data.length)⟩ else none

/-- Replace the first occurrence of `pat` (as a character list) by `rep`. -/
def listReplaceFirst (pat rep : List Char) : List Char → List Char
  | [] => []
  | c :: cs =>
    if pat.isPrefixOf (c :: cs) then rep ++ (c :: cs).drop pat.length
    else c :: listReplaceFirst pat rep cs

/-- Mirror of Rust `str::replacen(pat, rep, 1)`. -/
def replacenOnce (s pat rep : String) : String := ⟨listReplaceFirst pat.data rep.data s.data⟩

/-- An account of `ServiceConfig`, from
`src/components/configurator/src/lib.rs`. The `hashed_password` field is
modelled from the spec: it is read by the AUTH handler
(`user.hashed_password`) but the configurator source present here does not
declare it; per the spec it is an optional opaque yescrypt PHC string. -/
structure Account where
  domain : String
  user : String
  aliases : Option (List String)
  hashed_password : Option String
deriving DecidableEq

/-- `Account::get_all_addresses`: aliases (or empty) with the primary
`user@domain` pushed at the end. -/
def Account.get_all_addresses (a : Account) : List String :=
  (match a.aliases with
   | some l => l
   | none => []) ++ [a.user ++ "@" ++ a.domain]

/-- Modelled from the spec: `get_primary_address` returns `user@domain`
(the function is called by the delivery code but its body is not among the
source files here). -/
def Account.get_primary_address (a : Account) : String := a.user ++ "@" ++ a.domain

/-- The service configuration (TOML-loaded); only the fields the verified
code reads are modelled. -/
structure Configuration where
  fqdn : String
  sending_fqdn : String
  domains : List String
  accounts : List Account
deriving DecidableEq

/-- Modelled from the spec: `get_user_from_alias(addr)` is a linear scan
over accounts returning the first whose address set contains `addr`
(exact-case equality); the function is called by the AUTH handler and the
delivery loop but its body is not among the source files here. -/
def Configuration.get_user_from_alias (c : Configuration) (addr : String) : Option Account :=
  c.accounts.find? (fun a => a.get_all_addresses.contains addr)

/-- `SMTPPortConfiguration` from `src/lib/shared/src/lib.rs`. -/
structure SMTPPortConfiguration where
  auth_enabled : Bool
  filtering_enabled : Bool
  implicit_tls : Bool
  port : Nat
deriving DecidableEq

/-- The per-session `Mail` record (`src/lib/protocols/smtp/server/src/lib.rs`).
The Rust fields `from` and `to` are Lean keywords and are rendered
`from_` and `to_`. -/
structure Mail where
  id : String := ""
  from_ : String := ""
  to_ : List String := []
  data : String := ""
  sending_data : Bool := false
  in_mail : Bool := false
  has_authed : Bool := false
  has_tlsd : Bool := false
deriving DecidableEq

/-- Session state: the mail under construction, whether the write half of
the socket is still open, and the sequence of `write_all` payloads so far. -/
structure Sess where
  mail : Mail
  writeOpen : Bool
  out : List String
deriving DecidableEq

/-- Result of one command handler: normal return, an error propagated by
`?` (aborting the session), or a Rust panic. -/
inductive WR where
  | ok (s : Sess)
  | errored (out : List String)
  | panicked (out : List String)
deriving DecidableEq

/-- The output written so far, regardless of outcome. -/
def WR.outOf : WR → List String
  | .ok s => s.out
  | .errored o => o
  | .panicked o => o

/-- `message_formatter`: append CRLF. -/
def message_formatter (s : String) : String := s ++ "\r\n"

/-- One `write_all` call: appends the payload if the write half is open,
otherwise fails (as a write after `shutdown` does). -/
def writeAll (st : Sess) (bytes : String) : WR :=
  if st.writeOpen then .ok { st with out := st.out ++ [bytes] } else .errored st.out

/-- `write_all(&message_formatter(msg))`. -/
def wr (st : Sess) (msg : String) : WR := writeAll st (message_formatter msg)

/-- The external collaborators of the session logic: base64 decoding,
UTF-8 lossy decoding, yescrypt PHC hash parsing and password
verification, and whether the TLS handshake succeeds. -/
structure Ext where
  decode : String → Option (List Nat)
  utf8Lossy : List Nat → String
  hashParses : String → Bool
  verifyOk : String → String → Bool
  tlsOk : Bool

/-- Mirror of Rust slice `split(|&b| b == 0)`: split a byte list at every
zero byte, keeping empty chunks; there is always at least one chunk. -/
def splitOnZero : List Nat → List (List Nat)
  | [] => [[]]
  | b :: bs =>
    if b = 0 then [] :: splitOnZero bs
    else
      match splitOnZero bs with
      | p :: ps => (b :: p) :: ps
      | [] => [[b]]

/-- The EHLO capability lines, from `commands/ehlo.rs`: three fixed lines,
`250-STARTTLS` pushed iff `!has_tlsd`, `250-AUTH PLAIN` pushed iff
`auth_enabled && has_tlsd`, then the last line's first `250-` replaced by
`250 `. -/
def ehlo_extension_strs (auth_enabled has_tlsd : Bool) : List String :=
  let l : List String := ["250-Localhost", "250-PIPELINING", "250-Size " ++ toString (10 * 1024 * 1024)]
  let l := if !has_tlsd then l ++ ["250-STARTTLS"] else l
  let l := if auth_enabled && has_tlsd then l ++ ["250-AUTH PLAIN"] else l
  match l.getLast? with
  | some last => l.dropLast ++ [replacenOnce last "250-" "250 "]
  | none => l

/-- The single EHLO write: lines joined with CRLF plus a trailing CRLF. -/
def ehlo_response (auth_enabled has_tlsd : Bool) : String :=
  String.intercalate "\r\n" (ehlo_extension_strs auth_enabled has_tlsd) ++ "\r\n"

/-- `commands::ehlo::handle`. -/
def ehlo_handle (config : SMTPPortConfiguration) (s : Sess) : WR :=
  writeAll s (ehlo_response config.auth_enabled s.mail.has_tlsd)

/-- `commands::auth::handle` from `commands/auth.rs`. Note: when the
decoded payload does not have exactly 3 NUL-separated parts the code
writes 535 but does not return; it then indexes `parts[1]` and
`parts[2]`, which panics when fewer than 3 parts exist, and otherwise
proceeds to attempt authentication. A base64 decode error is propagated
by `?`, aborting the session. -/
def auth_handle (ext : Ext) (svc : Configuration) (s : Sess) (cmd : List String) : WR :=
  if s.mail.in_mail || s.mail.has_authed then
    wr s "503 Authentication already completed or already in mail"
  else
    match cmd.get? 1 with
    | none => wr s "501 Syntax error in parameters"
    | some auth_type =>
      if auth_type = "PLAIN" then
        match cmd.get? 2 with
        | none => wr s "535 Authentication failed"
        | some b64 =>
          match ext.decode b64 with
          | none => .errored s.out
          | some decoded =>
            let parts := splitOnZero decoded
            let r := if parts.length ≠ 3 then wr s "535 Authentication failed" else .ok s
            match r with
            | .ok s1 =>
              match parts.get? 1, parts.get? 2 with
              | some p1, some p2 =>
                let username := ext.utf8Lossy p1
                let password := ext.utf8Lossy p2
                match svc.get_user_from_alias username with
                | some user =>
                  match user.hashed_password with
                  | some src =>
                    if ext.hashParses src then
                      if ext.verifyOk src password then
                        wr s1 "235 Authentication Successfull"
                      else
                        wr s1 "535 Authentication failed"
                    else
                      wr s1 "535 Authentication failed"
                  | none => wr s1 "535 Authentication failed"
                | none => wr s1 "535 Authentication failed"
              | _, _ => .panicked s1.out
            | r => r
      else
        wr s "504 Authentication mechanism not supported"

/-- The affix stripping shared by `commands/mail.rs` and `commands/rcpt.rs`:
strip `pre`, then `<`, then `>`; note the `strip_suffix(">")` fallback
closure captures the binding from before the `<` strip. -/
def strip_addr (pre : String) (second : String) : String :=
  let s1 := (stripPrefixOpt second pre).getD second
  let a := (stripPrefixOpt s1 "<").getD s1
  (stripSuffixOpt a ">").getD s1

/-- `commands::mail::handle`: set `in_mail`; with an argument, strip
`FROM:` and angle brackets, reply `250 OK`, then store `mail.from`.
Without an argument nothing is written. -/
def mail_handle (s : Sess) (cmd : List String) : WR :=
  let s := { s with mail := { s.mail with in_mail := true } }
  match cmd.get? 1 with
  | none => .ok s
  | some second =>
    let second := strip_addr "FROM:" second
    match wr s "250 OK" with
    | .ok s1 => .ok { s1 with mail := { s1.mail with from_ := second } }
    | r => r

/-- `commands::rcpt::handle`: with an argument, strip `TO:` and angle
brackets, push onto `mail.to`, then reply `250 OK`. Without an argument
nothing is written. -/
def rcpt_handle (s : Sess) (cmd : List String) : WR :=
  match cmd.get? 1 with
  | none => .ok s
  | some second =>
    let second := strip_addr "TO:" second
    let s := { s with mail := { s.mail with to_ := s.mail.to_ ++ [second] } }
    wr s "250 OK"

/-- `commands::data::handle`: on empty `from` or empty `to` write `503`,
then (unconditionally) set `sending_data` and write `354`. -/
def data_handle (s : Sess) : WR :=
  let r := if s.mail.from_.isEmpty || s.mail.to_.isEmpty then
             wr s "503 Bad Sequence of commands"
           else .ok s
  match r with
  | .ok s1 =>
    let s2 := { s1 with mail := { s1.mail with sending_data := true } }
    wr s2 "354 End data with <CR><LF>.<CR><LF>"
  | r => r

/-- `commands::quit::handle`: write `221 Bye`, then shut down the write
half. The handler returns `Ok(())`; it does not break the session loop. -/
def quit_handle (s : Sess) : WR :=
  match wr s "221 Bye" with
  | .ok s1 => .ok { s1 with writeOpen := false }
  | r => r

/-- `commands::starttls::handle`: `454` when TLS is already active;
otherwise write `220`, flush, set `has_tlsd`, and perform the handshake
(whose failure is propagated by `?`). -/
def starttls_handle (ext : Ext) (s : Sess) : WR :=
  if s.mail.has_tlsd then
    wr s "454 TLS Already Active"
  else
    match wr s "220 Ready to start TLS" with
    | .ok s1 =>
      let s2 := { s1 with mail := { s1.mail with has_tlsd := true } }
      if ext.tlsOk then .ok s2 else .errored s2.out
    | r => r

/-- The command dispatch of the modular `handle_smtp` loop
(`src/lib/protocols/smtp/server/src/lib.rs`): an empty token list is
skipped, otherwise the first token selects the handler. -/
def execCommand (ext : Ext) (config : SMTPPortConfiguration) (svc : Configuration)
    (s : Sess) (cmd : List String) : WR :=
  match cmd.head? with
  | none => .ok s
  | some first =>
    if first = "EHLO" then ehlo_handle config s
    else if first = "AUTH" then auth_handle ext svc s cmd
    else if first = "MAIL" then mail_handle s cmd
    else if first = "RCPT" then rcpt_handle s cmd
    else if first = "DATA" then data_handle s
    else if first = "QUIT" then quit_handle s
    else if first = "STARTTLS" then starttls_handle ext s
    else wr s "502 Command not implemented"

/-- Result of a whole session: the completed `Mail` (id assigned at the
end) on clean EOF, or the abort modes. -/
inductive SessionResult where
  | ok (mail : Mail) (out : List String)
  | errored (out : List String)
  | panicked (out : List String)
deriving DecidableEq

/-- The read loop of the modular `handle_smtp`: outside DATA mode,
tokenize and dispatch; inside DATA mode, a line trimming to `.` ends the
body with `250 Message accepted`, any other line is appended after
CRLF-to-LF normalisation. EOF (end of the input list) exits the loop and
assigns the uuid. -/
def sessionLoop (ext : Ext) (config : SMTPPortConfiguration) (svc : Configuration)
    (uuid : String) : Sess → List String → SessionResult
  | s, [] => .ok { s.mail with id := uuid } s.out
  | s, line :: rest =>
    if s.mail.sending_data then
      if rtrim line = "." then
        match wr { s with mail := { s.mail with sending_data := false } } "250 Message accepted" with
        | .ok s1 => sessionLoop ext config svc uuid s1 rest
        | .errored o => .errored o
        | .panicked o => .panicked o
      else
        sessionLoop ext config svc uuid
          { s with mail := { s.mail with data := s.mail.data ++ normLine line } } rest
    else
      match execCommand ext config svc s (tokenizeLine line) with
      | .ok s1 => sessionLoop ext config svc uuid s1 rest
      | .errored o => .errored o
      | .panicked o => .panicked o

/-- The modular `handle_smtp`: greet with `220 Server Ready`, then run the
loop on a fresh `Mail`. -/
def handle_smtp (ext : Ext) (config : SMTPPortConfiguration) (svc : Configuration)
    (uuid : String) (lines : List String) : SessionResult :=
  sessionLoop ext config svc uuid ⟨{}, true, [message_formatter "220 Server Ready"]⟩ lines

/-- EHLO arm of the monolithic `handle_smtp`
(`src/components/smtp/src/message_handler.rs` lines 113-142); the body is
the same as `commands/ehlo.rs`. -/
def mono_ehlo_handle (config : SMTPPortConfiguration) (s : Sess) : WR :=
  writeAll s (ehlo_response config.auth_enabled s.mail.has_tlsd)

/-- AUTH arm of the monolithic `handle_smtp` (lines 143-270). It is the
body of `commands/auth.rs` except that on successful verification it sets
`mail.has_authed = true` before writing `235`. -/
def mono_auth_handle (ext : Ext) (svc : Configuration) (s : Sess) (cmd : List String) : WR :=
  if s.mail.in_mail || s.mail.has_authed then
    wr s "503 Authentication already completed or already in mail"
  else
    match cmd.get? 1 with
    | none => wr s "501 Syntax error in parameters"
    | some auth_type =>
      if auth_type = "PLAIN" then
        match cmd.get? 2 with
        | none => wr s "535 Authentication failed"
        | some b64 =>
          match ext.decode b64 with
          | none => .errored s.out
          | some decoded =>
            let parts := splitOnZero decoded
            let r := if parts.length ≠ 3 then wr s "535 Authentication failed" else .ok s
            match r with
            | .ok s1 =>
              match parts.get? 1, parts.get? 2 with
              | some p1, some p2 =>
                let username := ext.utf8Lossy p1
                let password := ext.utf8Lossy p2
                match svc.get_user_from_alias username with
                | some user =>
                  match user.hashed_password with
                  | some src =>
                    if ext.hashParses src then
                      if ext.verifyOk src password then
                        wr { s1 with mail := { s1.mail with has_authed := true } }
                          "235 Authentication Successfull"
                      else
                        wr s1 "535 Authentication failed"
                    else
                      wr s1 "535 Authentication failed"
                  | none => wr s1 "535 Authentication failed"
                | none => wr s1 "535 Authentication failed"
              | _, _ => .panicked s1.out
            | r => r
      else
        wr s "504 Authentication mechanism not supported"

/-- MAIL arm of the monolithic `handle_smtp` (lines 271-296); same body as
`commands/mail.rs`. -/
def mono_mail_handle (s : Sess) (cmd : List String) : WR :=
  let s := { s with mail := { s.mail with in_mail := true } }
  match cmd.get? 1 with
  | none => .ok s
  | some second =>
    let second := strip_addr "FROM:" second
    match wr s "250 OK" with
    | .ok s1 => .ok { s1 with mail := { s1.mail with from_ := second } }
    | r => r

/-- RCPT arm of the monolithic `handle_smtp` (lines 297-319); same body as
`commands/rcpt.rs`. -/
def mono_rcpt_handle (s : Sess) (cmd : List String) : WR :=
  match cmd.get? 1 with
  | none => .ok s
  | some second =>
    let second := strip_addr "TO:" second
    let s := { s with mail := { s.mail with to_ := s.mail.to_ ++ [second] } }
    wr s "250 OK"

/-- DATA arm of the monolithic `handle_smtp` (lines 320-333); same body as
`commands/data.rs`. -/
def mono_data_handle (s : Sess) : WR :=
  let r := if s.mail.from_.isEmpty || s.mail.to_.isEmpty then
             wr s "503 Bad Sequence of commands"
           else .ok s
  match r with
  | .ok s1 =>
    let s2 := { s1 with mail := { s1.mail with sending_data := true } }
    wr s2 "354 End data with <CR><LF>.<CR><LF>"
  | r => r

/-- STARTTLS arm of the monolithic `handle_smtp` (lines 342-373); same
observable behaviour as `commands/starttls.rs`. -/
def mono_starttls_handle (ext : Ext) (s : Sess) : WR :=
  if s.mail.has_tlsd then
    wr s "454 TLS Already Active"
  else
    match wr s "220 Ready to start TLS" with
    | .ok s1 =>
      let s2 := { s1 with mail := { s1.mail with has_tlsd := true } }
      if ext.tlsOk then .ok s2 else .errored s2.out
    | r => r

/-- Result of one command in the monolithic loop: `brk` is the `break`
taken by the QUIT arm. -/
inductive MR where
  | next (s : Sess)
  | brk (s : Sess)
  | errored (out : List String)
  | panicked (out : List String)
deriving DecidableEq

/-- Inject a handler result into the monolithic loop result. -/
def liftWR : WR → MR
  | .ok s => .next s
  | .errored o => .errored o
  | .panicked o => .panicked o

/-- The command dispatch of the monolithic `handle_smtp` (lines 112-381);
the QUIT arm (lines 334-341) writes `221 Bye`, shuts the write half down
and breaks the loop. -/
def monoExecCommand (ext : Ext) (config : SMTPPortConfiguration) (svc : Configuration)
    (s : Sess) (cmd : List String) : MR :=
  match cmd.head? with
  | none => .next s
  | some first =>
    if first = "EHLO" then liftWR (mono_ehlo_handle config s)
    else if first = "AUTH" then liftWR (mono_auth_handle ext svc s cmd)
    else if first = "MAIL" then liftWR (mono_mail_handle s cmd)
    else if first = "RCPT" then liftWR (mono_rcpt_handle s cmd)
    else if first = "DATA" then liftWR (mono_data_handle s)
    else if first = "QUIT" then
      match wr s "221 Bye" with
      | .ok s1 => .brk { s1 with writeOpen := false }
      | .errored o => .errored o
      | .panicked o => .panicked o
    else if first = "STARTTLS" then liftWR (mono_starttls_handle ext s)
    else liftWR (wr s "502 Command not implemented")

/-- The read loop of the monolithic `handle_smtp` (lines 93-399): as the
modular loop, except that the QUIT arm breaks out. The uuid the Rust code
allocates after the loop is modelled as a parameter and recorded in
`mail.id` (the monolithic `Mail` itself has no id field; the uuid is used
for the delivery paths). -/
def monoSessionLoop (ext : Ext) (config : SMTPPortConfiguration) (svc : Configuration)
    (uuid : String) : Sess → List String → SessionResult
  | s, [] => .ok { s.mail with id := uuid } s.out
  | s, line :: rest =>
    if s.mail.sending_data then
      if rtrim line = "." then
        match wr { s with mail := { s.mail with sending_data := false } } "250 Message accepted" with
        | .ok s1 => monoSessionLoop ext config svc uuid s1 rest
        | .errored o => .errored o
        | .panicked o => .panicked o
      else
        monoSessionLoop ext config svc uuid
          { s with mail := { s.mail with data := s.mail.data ++ normLine line } } rest
    else
      match monoExecCommand ext config svc s (tokenizeLine line) with
      | .next s1 => monoSessionLoop ext config svc uuid s1 rest
      | .brk s1 => .ok { s1.mail with id := uuid } s1.out
      | .errored o => .errored o
      | .panicked o => .panicked o

/-- The monolithic `handle_smtp` session part: greet, then loop. -/
def mono_handle_smtp (ext : Ext) (config : SMTPPortConfiguration) (svc : Configuration)
    (uuid : String) (lines : List String) : SessionResult :=
  monoSessionLoop ext config svc uuid ⟨{}, true, [message_formatter "220 Server Ready"]⟩ lines

/-- Sender lookup of the delivery code (`src/components/smtp/src/lib.rs`
lines 95-98): first account whose address set contains `mail.from`. -/
def from_account (svc : Configuration) (mail : Mail) : Option Account :=
  svc.accounts.find? (fun x => x.get_all_addresses.contains mail.from_)

/-- Local-recipient filter of the delivery code (lines 100-109). -/
def local_recipients (svc : Configuration) (mail : Mail) : List String :=
  mail.to_.filter (fun r => svc.accounts.any (fun a => a.get_all_addresses.contains r))

/-- The Sent-copy write (lines 113-123): one file
`${root}/${sender primary}/Sent/${id}.eml` iff the sender resolves and the
port has `auth_enabled`. -/
def sent_writes (svc : Configuration) (config : SMTPPortConfiguration)
    (root : String) (mail : Mail) : List (String × String) :=
  if (from_account svc mail).isSome && config.auth_enabled then
    match from_account svc mail with
    | some acc => [(root ++ "/" ++ acc.get_primary_address ++ "/Sent/" ++ mail.id ++ ".eml", mail.data)]
    | none => []
  else []

/-- The Inbox write loop (lines 125-135) over an explicit recipient list:
each recipient is resolved with `get_user_from_alias(...).unwrap()` (the
`unwrap` of a `None` would panic, modelled as `none`), and the file
`${root}/${primary}/Inbox/${id}.eml` is written. -/
def inbox_writes_go (svc : Configuration) (root : String) (mail : Mail) :
    List String → Option (List (String × String))
  | [] => some []
  | r :: rest =>
    match svc.get_user_from_alias r with
    | some acc =>
      (inbox_writes_go svc root mail rest).map
        (fun ws => (root ++ "/" ++ acc.get_primary_address ++ "/Inbox/" ++ mail.id ++ ".eml", mail.data) :: ws)
    | none => none

/-- The Inbox writes of the delivery code: the loop run on the filtered
local recipients. -/
def inbox_writes (svc : Configuration) (root : String) (mail : Mail) :
    Option (List (String × String)) :=
  inbox_writes_go svc root mail (local_recipients svc mail)

/-- All file writes the delivery section performs for one accepted mail,
in order: the Sent copy first, then the Inbox copies. -/
def delivery_writes (svc : Configuration) (config : SMTPPortConfiguration)
    (root : String) (mail : Mail) : Option (List (String × String)) :=
  (inbox_writes svc root mail).map (fun l => sent_writes svc config root mail ++ l)

/-- Projection used to state theorems about the stored `mail.from`. -/
def fromOf : WR → Option String
  | .ok s => some s.mail.from_
  | _ => none

/-- Projection used to state theorems about the accumulated body. -/
def dataOf : SessionResult → Option String
  | .ok m _ => some m.data
  | _ => none

/-- Concrete externals for evaluation: base64 decodes only `YWJj` (the
standard encoding of `abc`, which contains no NUL byte); everything else
is a decode error; hash parsing and verification always fail. -/
def extB : Ext :=
  ⟨fun b => if b = "YWJj" then some [97, 98, 99] else none,
   fun _ => "", fun _ => false, fun _ _ => false, true⟩

/-- Concrete externals for the AUTH success runs: every payload decodes to
`[0, 97, 0, 97]` (authzid empty, user byte `a`, password byte `a`), the
byte `[97]` lossy-decodes to `example@example.com`, hash parsing and
verification succeed. -/
def extA : Ext :=
  ⟨fun _ => some [0, 97, 0, 97],
   fun bs => if bs = [97] then "example@example.com" else "",
   fun _ => true, fun _ _ => true, true⟩

/-- The transfer-port policy (`start_smtp`, port 2525). -/
def cfgT : SMTPPortConfiguration := ⟨false, true, false, 2525⟩

/-- The submission-port policy (`start_smtp`, port 5870). -/
def cfgS : SMTPPortConfiguration := ⟨true, false, false, 5870⟩

/-- The first account of the configurator's own test configuration. -/
def accExample : Account :=
  ⟨"example.com", "example", some ["hi@example.com", "example@example.net"], none⟩

/-- The second account of the configurator's own test configuration. -/
def accTest : Account := ⟨"example.com", "test", none, none⟩

/-- The configurator's own test configuration. -/
def svcT : Configuration :=
  ⟨"mail.example.com", "example.com", ["example.com", "example.net"], [accExample, accTest]⟩

/-- A one-account configuration whose account carries a stored hash. -/
def accAuth : Account := ⟨"example.com", "example", some ["hi@example.com"], some "h"⟩

/-- Configuration used by the AUTH success runs. -/
def svcA : Configuration := ⟨"mail.example.com", "example.com", ["example.com"], [accAuth]⟩

/-- A fresh session state with an empty output log. -/
def s0 : Sess := ⟨{}, true, []⟩

/-- A mail addressed to an alias and the primary of the same account. -/
def mailW : Mail := { id := "u", to_ := ["hi@example.com", "example@example.com"], data := "D" }

/-- Writing on an open write half appends the formatted message. -/
theorem wr_open (s : Sess) (msg : String) (h : s.writeOpen = true) :
    wr s msg = .ok { s with out := s.out ++ [message_formatter msg] } := by
  simp [wr, writeAll, h]

/-- `List.any` agrees with definedness of `List.find?` for one predicate. -/
theorem any_eq_isSome_find {α : Type} (p : α → Bool) (l : List α) :
    l.any p = (l.find? p).isSome := by
  induction l with
  | nil => rfl
  | cons a t ih =>
    by_cases h : p a = true
    · simp [List.any_cons, List.find?_cons_of_pos _ h, h]
    · simp only [Bool.not_eq_true] at h
      simp [List.any_cons, List.find?_cons_of_neg, h, ih]

/-- String append is associative. -/
theorem string_append_assoc (a b c : String) : a ++ b ++ c = a ++ (b ++ c) := by
  cases a with
  | mk la =>
    cases b with
    | mk lb =>
      cases c with
      | mk lc =>
        show String.mk (la ++ lb ++ lc) = String.mk (la ++ (lb ++ lc))
        exact congrArg String.mk (List.append_assoc la lb lc)

/-- The empty string is a right identity for append. -/
theorem string_append_empty (a : String) : a ++ "" = a := by
  cases a with
  | mk la =>
    show String.mk (la ++ []) = String.mk la
    exact congrArg String.mk (List.append_nil la)

/-- The delivery loop run on the locally-filtered recipients never hits
the `unwrap` panic and produces exactly one Inbox entry per recipient of
the raw list that resolves to an account. -/
theorem inbox_writes_go_filter (svc : Configuration) (root : String) (mail : Mail)
    (l : List String) :
    inbox_writes_go svc root mail
      (l.filter (fun r => svc.accounts.any (fun a => a.get_all_addresses.contains r)))
    = some (l.filterMap (fun r => (svc.get_user_from_alias r).map (fun acc =>
        (root ++ "/" ++ acc.get_primary_address ++ "/Inbox/" ++ mail.id ++ ".eml", mail.data)))) := by
  induction l with
  | nil => rfl
  | cons r t ih =>
    by_cases h : svc.accounts.any (fun a => a.get_all_addresses.contains r) = true
    · have hs : (svc.get_user_from_alias r).isSome = true := by
        rw [Configuration.get_user_from_alias, ← any_eq_isSome_find]
        exact h
      obtain ⟨acc, hacc⟩ := Option.isSome_iff_exists.mp hs
      simp only [List.filter_cons, h, if_true, List.filterMap_cons, hacc, Option.map_some',
        inbox_writes_go, ih]
    · have h' : svc.accounts.any (fun a => a.get_all_addresses.contains r) = false := by
        simpa using h
      have hfind : (List.find? (fun a => a.get_all_addresses.contains r) svc.accounts).isSome
          = false := by
        rw [← any_eq_isSome_find]
        exact h'
      have hn : svc.get_user_from_alias r = none := by
        rw [Configuration.get_user_from_alias]
        apply Option.not_isSome_iff_eq_none.mp
        rw [Bool.not_eq_true]
        exact hfind
      simp only [List.filter_cons, h', Bool.false_eq_true, if_false, List.filterMap_cons, hn,
        Option.map_none', ih]

/-- C1: evaluation of the AUTH PLAIN handler at a payload that does not
split into three NUL-separated fields. `YWJj` is valid base64 of `abc`
(no NUL byte), so the handler writes `535 Authentication failed` and then
panics indexing `parts[1]`; an undecodable payload (`%%`) makes the `?`
on the base64 decode abort the session with no reply at all. The claim's
promise that every failure mode yields one uniform `535` and the session
continues is therefore violated by the code. -/
theorem auth_plain_malformed_payload_breaks_session :
    auth_handle extB svcT s0 ["AUTH", "PLAIN", "YWJj"]
      = .panicked [message_formatter "535 Authentication failed"]
    ∧ auth_handle extB svcT s0 ["AUTH", "PLAIN", "%%"] = .errored [] := ⟨rfl, rfl⟩

/-- C2 counterexample: with `has_tls = false` (and `auth_enabled = false`)
the EHLO response does not contain the line `250-STARTTLS`: the STARTTLS
capability is then the last line and has been rewritten to use `250 `
(space). -/
theorem ehlo_no_dash_starttls_line :
    ¬ ("250-STARTTLS" ∈ ehlo_extension_strs false false) := by decide

/-- C2 amended: the EHLO response contains a STARTTLS capability line
(dash or space form) iff `has_tls` is false, an `AUTH PLAIN` capability
line iff `auth_enabled && has_tls`, every line before the last starts
with `250-`, and the (always existing) last line starts with `250 `. -/
theorem ehlo_capability_lines : ∀ (auth has : Bool),
    ((("250-STARTTLS" ∈ ehlo_extension_strs auth has)
        ∨ ("250 STARTTLS" ∈ ehlo_extension_strs auth has)) ↔ has = false)
    ∧ ((("250-AUTH PLAIN" ∈ ehlo_extension_strs auth has)
        ∨ ("250 AUTH PLAIN" ∈ ehlo_extension_strs auth has)) ↔ (auth && has) = true)
    ∧ (∀ l ∈ (ehlo_extension_strs auth has).dropLast, "250-".data.isPrefixOf l.data = true)
    ∧ (Option.all (fun l => "250 ".data.isPrefixOf l.data)
        ((ehlo_extension_strs auth has).getLast?) = true)
    ∧ ehlo_extension_strs auth has ≠ [] := by decide

/-- C3: evaluation of the MAIL handler at the four argument shapes of the
claim. Three of them store `a@b`, but `MAIL FROM:<a@b` stores `<a@b`: the
`strip_suffix(">")` fallback closure returns the string from before the
`<` strip, so the missing closing bracket un-does the opening-bracket
strip, contradicting the claim (and scenario 5 of the spec). -/
theorem mail_from_affix_stripping :
    fromOf (mail_handle s0 ["MAIL", "FROM:<a@b>"]) = some "a@b"
    ∧ fromOf (mail_handle s0 ["MAIL", "FROM:a@b"]) = some "a@b"
    ∧ fromOf (mail_handle s0 ["MAIL", "FROM:a@b>"]) = some "a@b"
    ∧ fromOf (mail_handle s0 ["MAIL", "FROM:<a@b"]) = some "<a@b" := ⟨rfl, rfl, rfl, rfl⟩

/-- C4 counterexample: after QUIT the session loop does not exit; a
following MAIL command is still read and dispatched, and the session then
aborts with an error when its `250 OK` write hits the closed write half
(so the connection ends in the error path, not the clean QUIT path the
claim describes). -/
theorem quit_then_mail_aborts_session :
    handle_smtp extB cfgT svcT "id0" ["QUIT\r\n", "MAIL FROM:<a@b>\r\n"]
      = .errored [message_formatter "220 Server Ready", message_formatter "221 Bye"] := rfl

/-- C6 counterexample: a transmitted body line `..x` is stored verbatim as
`..x` (plus LF); no dot-unstuffing is applied, so the stored content is
not the dot-unstuffed transmitted body (`.x`). -/
theorem data_dot_stuffed_line_kept_verbatim :
    dataOf (handle_smtp extB cfgT svcT "id0"
        ["MAIL FROM:<a@b>\r\n", "RCPT TO:<c@d>\r\n", "DATA\r\n", "..x\r\n", ".\r\n"])
      = some "..x\n"
    ∧ ("..x\n" : String) ≠ ".x\n" := ⟨rfl, by decide⟩

/-- C9 counterexample: a `MAIL` command with no argument token produces
zero responses, contradicting one-response-per-command. -/
theorem bare_mail_gets_no_reply :
    (execCommand extB cfgT svcT s0 ["MAIL"]).outOf = [] := rfl

/-- C10 counterexample: on the same two-command input (two identical
AUTH PLAIN commands that verify successfully) the monolithic handler
replies `235` then `503` and records `has_authed`, while the modular
handler replies `235` twice and leaves `has_authed` false — the two
session implementations are not observationally equivalent. -/
theorem handlers_disagree_on_auth_success :
    mono_handle_smtp extA cfgT svcA "id" ["AUTH PLAIN x\r\n", "AUTH PLAIN x\r\n"]
      ≠ handle_smtp extA cfgT svcA "id" ["AUTH PLAIN x\r\n", "AUTH PLAIN x\r\n"] := by decide

/-- C8: for every mail state, DATA with empty `from` or empty `to` writes
`503 Bad Sequence of commands` and then nevertheless sets `sending_data`
and writes `354 End data with <CR><LF>.<CR><LF>`; with both non-empty
only the `354` reply is written, and `sending_data` is set either way. -/
theorem data_enters_data_mode : ∀ (m : Mail) (out : List String),
    data_handle ⟨m, true, out⟩
      = .ok ⟨{ m with sending_data := true }, true,
             out ++ (if m.from_.isEmpty || m.to_.isEmpty then
                       [message_formatter "503 Bad Sequence of commands",
                        message_formatter "354 End data with <CR><LF>.<CR><LF>"]
                     else [message_formatter "354 End data with <CR><LF>.<CR><LF>"])⟩ := by
  intro m out
  by_cases h : (m.from_.isEmpty || m.to_.isEmpty) = true
  · simp [data_handle, wr, writeAll, h, List.append_assoc]
  · have h' : (m.from_.isEmpty || m.to_.isEmpty) = false := by simpa using h
    simp [data_handle, wr, writeAll, h']

/-- C5: the delivery section never hits its `unwrap` panic, writes one
Inbox file `${root}/${primary}/Inbox/${id}.eml` for exactly those
recipients of `mail.to` that resolve to an account (non-local recipients
contribute nothing), and writes the Sent copy
`${root}/${primary}/Sent/${id}.eml` iff `mail.from` resolves to an
account and the port's `auth_enabled` flag is set. -/
theorem delivery_targets : ∀ (svc : Configuration) (config : SMTPPortConfiguration)
    (root : String) (mail : Mail),
    delivery_writes svc config root mail
      = some (sent_writes svc config root mail
          ++ mail.to_.filterMap (fun r => (svc.get_user_from_alias r).map (fun acc =>
               (root ++ "/" ++ acc.get_primary_address ++ "/Inbox/" ++ mail.id ++ ".eml",
                mail.data))))
    ∧ sent_writes svc config root mail
      = (match from_account svc mail with
         | some acc =>
           if config.auth_enabled then
             [(root ++ "/" ++ acc.get_primary_address ++ "/Sent/" ++ mail.id ++ ".eml", mail.data)]
           else []
         | none => []) := by
  intro svc config root mail
  constructor
  · rw [delivery_writes, inbox_writes, local_recipients, inbox_writes_go_filter]
    rfl
  · rw [sent_writes]
    cases hfa : from_account svc mail with
    | some acc => cases hauth : config.auth_enabled <;> simp [hauth]
    | none => simp

/-- C7: when `mail.to` is two distinct addresses resolving to the same
account, the delivery produces exactly two Inbox writes to one and the
same path, keyed by that account's primary address — hence exactly one
Inbox file results. -/
theorem alias_delivery_dedup : ∀ (svc : Configuration) (root : String) (mail : Mail)
    (a1 a2 : String) (acc : Account),
    mail.to_ = [a1, a2] → a1 ≠ a2 →
    svc.get_user_from_alias a1 = some acc →
    svc.get_user_from_alias a2 = some acc →
    inbox_writes svc root mail
      = some [(root ++ "/" ++ acc.get_primary_address ++ "/Inbox/" ++ mail.id ++ ".eml",
               mail.data),
              (root ++ "/" ++ acc.get_primary_address ++ "/Inbox/" ++ mail.id ++ ".eml",
               mail.data)]
    ∧ (inbox_writes svc root mail).map (fun ws => (ws.map Prod.fst).dedup)
      = some [root ++ "/" ++ acc.get_primary_address ++ "/Inbox/" ++ mail.id ++ ".eml"] := by
  intro svc root mail a1 a2 acc hto hne h1 h2
  have any1 : svc.accounts.any (fun a => a.get_all_addresses.contains a1) = true := by
    rw [any_eq_isSome_find]
    rw [Configuration.get_user_from_alias] at h1
    rw [h1]
    rfl
  have any2 : svc.accounts.any (fun a => a.get_all_addresses.contains a2) = true := by
    rw [any_eq_isSome_find]
    rw [Configuration.get_user_from_alias] at h2
    rw [h2]
    rfl
  have hw : inbox_writes svc root mail
      = some [(root ++ "/" ++ acc.get_primary_address ++ "/Inbox/" ++ mail.id ++ ".eml",
               mail.data),
              (root ++ "/" ++ acc.get_primary_address ++ "/Inbox/" ++ mail.id ++ ".eml",
               mail.data)] := by
    rw [inbox_writes, local_recipients, hto]
    simp only [List.filter_cons, any1, any2, if_true, List.filter_nil]
    simp only [inbox_writes_go, h1, h2, Option.map_some']
  refine ⟨hw, ?_⟩
  rw [hw]
  simp only [Option.map_some', List.map_cons, List.map_nil]
  rw [List.dedup_cons_of_mem (by simp)]
  rfl

/-- C7 witness: the configurator's own test account, addressed through its
alias `hi@example.com` and its primary `example@example.com`. -/
theorem alias_delivery_dedup_witness :
    inbox_writes svcT "root" mailW
      = some [("root" ++ "/" ++ accExample.get_primary_address ++ "/Inbox/" ++ mailW.id ++ ".eml",
               mailW.data),
              ("root" ++ "/" ++ accExample.get_primary_address ++ "/Inbox/" ++ mailW.id ++ ".eml",
               mailW.data)]
    ∧ (inbox_writes svcT "root" mailW).map (fun ws => (ws.map Prod.fst).dedup)
      = some ["root" ++ "/" ++ accExample.get_primary_address ++ "/Inbox/" ++ mailW.id ++ ".eml"] :=
  alias_delivery_dedup svcT "root" mailW "hi@example.com" "example@example.com" accExample
    rfl (by decide) (by decide) (by decide)

/-- C4 amended: QUIT writes exactly `221 Bye` plus CRLF and half-closes
the write side, but the session loop continues into the remaining input
rather than exiting; the loop exits (cleanly, yielding the mail) only at
EOF. -/
theorem quit_replies_half_closes_loop_continues :
    ∀ (ext : Ext) (config : SMTPPortConfiguration) (svc : Configuration) (uuid : String)
      (s : Sess) (rest : List String),
    s.writeOpen = true → s.mail.sending_data = false →
    sessionLoop ext config svc uuid s ("QUIT\r\n" :: rest)
      = sessionLoop ext config svc uuid
          { s with writeOpen := false, out := s.out ++ [message_formatter "221 Bye"] } rest
    ∧ sessionLoop ext config svc uuid s [] = .ok { s.mail with id := uuid } s.out := by
  intro ext config svc uuid s rest hOpen hSend
  constructor
  · have hx : execCommand ext config svc s (tokenizeLine "QUIT\r\n") = quit_handle s := rfl
    simp only [sessionLoop, hSend, Bool.false_eq_true, if_false, hx, quit_handle,
      wr_open s "221 Bye" hOpen]
  · rfl

/-- C4 witness: the amended statement at the fresh session state. -/
theorem quit_replies_witness :
    sessionLoop extB cfgT svcT "id" s0 ["QUIT\r\n"]
      = sessionLoop extB cfgT svcT "id"
          { s0 with writeOpen := false, out := s0.out ++ [message_formatter "221 Bye"] } []
    ∧ sessionLoop extB cfgT svcT "id" s0 [] = .ok { s0.mail with id := "id" } s0.out :=
  quit_replies_half_closes_loop_continues extB cfgT svcT "id" s0 [] rfl rfl

/-- C6 amended: for any body lines none of which trims to `.`, followed by
the `.` terminator line, the session stores exactly the transmitted lines
with each CRLF normalised to LF, concatenated in order — no
dot-unstuffing — removes the terminator, and acknowledges with
`250 Message accepted`. -/
theorem data_mode_accumulates_verbatim :
    ∀ (ext : Ext) (config : SMTPPortConfiguration) (svc : Configuration) (uuid : String)
      (bs : List String) (s : Sess) (rest : List String),
    s.writeOpen = true → s.mail.sending_data = true →
    (∀ b ∈ bs, rtrim b ≠ ".") →
    sessionLoop ext config svc uuid s (bs ++ ".\r\n" :: rest)
      = sessionLoop ext config svc uuid
          { s with
            mail := { s.mail with
                      sending_data := false,
                      data := s.mail.data ++ (bs.map normLine).foldr (fun a b => a ++ b) "" },
            out := s.out ++ [message_formatter "250 Message accepted"] } rest := by
  intro ext config svc uuid bs
  induction bs with
  | nil =>
    intro s rest hOpen hSend hAll
    have hdot : rtrim ".\r\n" = "." := rfl
    have h1 : wr { s with mail := { s.mail with sending_data := false } } "250 Message accepted"
        = .ok { s with
                mail := { s.mail with sending_data := false },
                out := s.out ++ [message_formatter "250 Message accepted"] } :=
      wr_open _ _ hOpen
    simp only [List.nil_append, sessionLoop, hSend, if_true, hdot, h1, List.map_nil,
      List.foldr_nil, string_append_empty]
  | cons b t ih =>
    intro s rest hOpen hSend hAll
    have hb : rtrim b ≠ "." := hAll b (List.mem_cons_self b t)
    have hrec := ih { s with mail := { s.mail with data := s.mail.data ++ normLine b } } rest
      hOpen hSend (fun x hx => hAll x (List.mem_cons_of_mem b hx))
    simp only [List.cons_append, sessionLoop]
    rw [if_pos hSend, if_neg hb]
    refine hrec.trans ?_
    simp [string_append_assoc]

/-- C6 witness: the amended statement at a concrete state and body. -/
theorem data_mode_accumulates_witness :
    sessionLoop extB cfgT svcT "id" ⟨{ sending_data := true }, true, []⟩
        (["hi\r\n"] ++ ".\r\n" :: [])
      = sessionLoop extB cfgT svcT "id"
          { (⟨{ sending_data := true }, true, []⟩ : Sess) with
            mail := { (⟨{ sending_data := true }, true, []⟩ : Sess).mail with
                      sending_data := false,
                      data := (⟨{ sending_data := true }, true, []⟩ : Sess).mail.data
                        ++ ((["hi\r\n"] : List String).map normLine).foldr
                             (fun a b => a ++ b) "" },
            out := (⟨{ sending_data := true }, true, []⟩ : Sess).out
              ++ [message_formatter "250 Message accepted"] } [] :=
  data_mode_accumulates_verbatim extB cfgT svcT "id" ["hi\r\n"]
    ⟨{ sending_data := true }, true, []⟩ [] rfl rfl (by decide)

/-- C9 amended: outside DATA mode and for any command whose verb is not
`AUTH` (whose reply count depends on the external base64/yescrypt
outcomes and can be zero, one, two, or a panic), the dispatcher appends
exactly one reply — except that a blank line, or a `MAIL`/`RCPT` with no
argument token, appends none, and a `DATA` with an empty envelope appends
two (`503` then `354`). -/
theorem one_reply_per_command_outside_auth :
    ∀ (ext : Ext) (config : SMTPPortConfiguration) (svc : Configuration) (s : Sess)
      (cmd : List String),
    s.writeOpen = true → cmd.head? ≠ some "AUTH" →
    ∃ L, (execCommand ext config svc s cmd).outOf = s.out ++ L ∧
      L.length = (match cmd.head? with
        | none => 0
        | some first =>
          if (first = "MAIL" ∨ first = "RCPT") ∧ cmd.get? 1 = none then 0
          else if first = "DATA" ∧ (s.mail.from_.isEmpty || s.mail.to_.isEmpty) = true then 2
          else 1) := by
  intro ext config svc s cmd hOpen hAuth
  cases cmd with
  | nil => exact ⟨[], by simp [execCommand, WR.outOf], rfl⟩
  | cons first rest =>
    have hA : ¬ (first = "AUTH") := fun h => hAuth (by rw [List.head?_cons, h])
    by_cases hE : first = "EHLO"
    · subst hE
      refine ⟨[ehlo_response config.auth_enabled s.mail.has_tlsd], ?_, by simp⟩
      show (ehlo_handle config s).outOf = _
      simp [ehlo_handle, writeAll, hOpen, WR.outOf]
    · by_cases hM : first = "MAIL"
      · subst hM
        cases rest with
        | nil =>
          refine ⟨[], ?_, by simp⟩
          show (mail_handle s ["MAIL"]).outOf = _
          simp [mail_handle, WR.outOf]
        | cons a rest2 =>
          refine ⟨[message_formatter "250 OK"], ?_, by simp⟩
          show (mail_handle s ("MAIL" :: a :: rest2)).outOf = _
          simp [mail_handle, wr, writeAll, hOpen, WR.outOf]
      · by_cases hR : first = "RCPT"
        · subst hR
          cases rest with
          | nil =>
            refine ⟨[], ?_, by simp⟩
            show (rcpt_handle s ["RCPT"]).outOf = _
            simp [rcpt_handle, WR.outOf]
          | cons a rest2 =>
            refine ⟨[message_formatter "250 OK"], ?_, by simp⟩
            show (rcpt_handle s ("RCPT" :: a :: rest2)).outOf = _
            simp [rcpt_handle, wr, writeAll, hOpen, WR.outOf]
        · by_cases hD : first = "DATA"
          · subst hD
            by_cases hc : (s.mail.from_.isEmpty || s.mail.to_.isEmpty) = true
            · refine ⟨[message_formatter "503 Bad Sequence of commands",
                       message_formatter "354 End data with <CR><LF>.<CR><LF>"], ?_, by simp [hc]⟩
              show (data_handle s).outOf = _
              simp [data_handle, wr, writeAll, hOpen, hc, WR.outOf, List.append_assoc]
            · have hc' : (s.mail.from_.isEmpty || s.mail.to_.isEmpty) = false := by
                simpa using hc
              refine ⟨[message_formatter "354 End data with <CR><LF>.<CR><LF>"], ?_,
                by simp [hc']⟩
              show (data_handle s).outOf = _
              simp [data_handle, wr, writeAll, hOpen, hc', WR.outOf]
          · by_cases hQ : first = "QUIT"
            · subst hQ
              refine ⟨[message_formatter "221 Bye"], ?_, by simp⟩
              show (quit_handle s).outOf = _
              simp [quit_handle, wr, writeAll, hOpen, WR.outOf]
            · by_cases hS : first = "STARTTLS"
              · subst hS
                by_cases ht : s.mail.has_tlsd = true
                · refine ⟨[message_formatter "454 TLS Already Active"], ?_, by simp⟩
                  show (starttls_handle ext s).outOf = _
                  simp [starttls_handle, ht, wr, writeAll, hOpen, WR.outOf]
                · have ht' : s.mail.has_tlsd = false := by simpa using ht
                  refine ⟨[message_formatter "220 Ready to start TLS"], ?_, by simp⟩
                  show (starttls_handle ext s).outOf = _
                  cases hk : ext.tlsOk with
                  | true => simp [starttls_handle, ht', wr, writeAll, hOpen, hk, WR.outOf]
                  | false => simp [starttls_handle, ht', wr, writeAll, hOpen, hk, WR.outOf]
              · refine ⟨[message_formatter "502 Command not implemented"], ?_,
                  by simp [List.head?_cons, hM, hR, hD]⟩
                have hx : execCommand ext config svc s (first :: rest)
                    = wr s "502 Command not implemented" := by
                  simp only [execCommand, List.head?_cons]
                  rw [if_neg hE, if_neg hA, if_neg hM, if_neg hR, if_neg hD, if_neg hQ,
                    if_neg hS]
                rw [hx]
                simp [wr, writeAll, hOpen, WR.outOf]

/-- C9 witness: the amended statement applied at a concrete EHLO command
in the fresh session state. -/
theorem one_reply_witness :
    ∃ L, (execCommand extB cfgT svcT s0 ["EHLO", "x"]).outOf = s0.out ++ L ∧
      L.length = (match (["EHLO", "x"] : List String).head? with
        | none => 0
        | some first =>
          if (first = "MAIL" ∨ first = "RCPT") ∧ (["EHLO", "x"] : List String).get? 1 = none then 0
          else if first = "DATA" ∧ (s0.mail.from_.isEmpty || s0.mail.to_.isEmpty) = true then 2
          else 1) :=
  one_reply_per_command_outside_auth extB cfgT svcT s0 ["EHLO", "x"] rfl (by decide)

/-- The monolithic EHLO arm is the modular EHLO handler verbatim. -/
theorem mono_ehlo_handle_eq : mono_ehlo_handle = ehlo_handle := rfl

/-- The monolithic MAIL arm is the modular MAIL handler verbatim. -/
theorem mono_mail_handle_eq : mono_mail_handle = mail_handle := rfl

/-- The monolithic RCPT arm is the modular RCPT handler verbatim. -/
theorem mono_rcpt_handle_eq : mono_rcpt_handle = rcpt_handle := rfl

/-- The monolithic DATA arm is the modular DATA handler verbatim. -/
theorem mono_data_handle_eq : mono_data_handle = data_handle := rfl

/-- The monolithic STARTTLS arm matches the modular STARTTLS handler. -/
theorem mono_starttls_handle_eq : mono_starttls_handle = starttls_handle := rfl

/-- On any command whose verb is neither `AUTH` nor `QUIT`, the monolithic
dispatch is the modular dispatch. -/
theorem monoExec_agrees (ext : Ext) (config : SMTPPortConfiguration) (svc : Configuration)
    (s : Sess) (cmd : List String)
    (hA : cmd.head? ≠ some "AUTH") (hQ : cmd.head? ≠ some "QUIT") :
    monoExecCommand ext config svc s cmd = liftWR (execCommand ext config svc s cmd) := by
  cases cmd with
  | nil => rfl
  | cons first rest =>
    have hA' : ¬ (first = "AUTH") := fun h => hA (by rw [List.head?_cons, h])
    have hQ' : ¬ (first = "QUIT") := fun h => hQ (by rw [List.head?_cons, h])
    by_cases hE : first = "EHLO"
    · subst hE; rfl
    · by_cases hM : first = "MAIL"
      · subst hM; rfl
      · by_cases hR : first = "RCPT"
        · subst hR; rfl
        · by_cases hD : first = "DATA"
          · subst hD; rfl
          · by_cases hS : first = "STARTTLS"
            · subst hS; rfl
            · simp only [monoExecCommand, execCommand, List.head?_cons]
              rw [if_neg hE, if_neg hA', if_neg hM, if_neg hR, if_neg hD, if_neg hQ', if_neg hS,
                if_neg hE, if_neg hA', if_neg hM, if_neg hR, if_neg hD, if_neg hQ', if_neg hS]

/-- C10 amended: the monolithic and the modular session loops are
observationally equivalent (same reply sequence, same final `Mail`, same
abort mode) on every input whose lines contain no `AUTH` and no `QUIT`
verb; they genuinely diverge on those two verbs (monolithic sets
`has_authed` on AUTH success and breaks the loop on QUIT; the modular
handler does neither). -/
theorem sessions_agree_without_auth_quit :
    ∀ (ext : Ext) (config : SMTPPortConfiguration) (svc : Configuration) (uuid : String)
      (lines : List String) (s : Sess),
    (∀ l ∈ lines,
      (tokenizeLine l).head? ≠ some "AUTH" ∧ (tokenizeLine l).head? ≠ some "QUIT") →
    monoSessionLoop ext config svc uuid s lines = sessionLoop ext config svc uuid s lines := by
  intro ext config svc uuid lines
  induction lines with
  | nil => intro s _; rfl
  | cons l rest ih =>
    intro s h
    have hl := h l (List.mem_cons_self l rest)
    have hrest := fun x hx => h x (List.mem_cons_of_mem l hx)
    by_cases hSend : s.mail.sending_data = true
    · by_cases hdot : rtrim l = "."
      · simp only [monoSessionLoop, sessionLoop]
        rw [if_pos hSend, if_pos hSend, if_pos hdot, if_pos hdot]
        cases hw : wr { s with mail := { s.mail with sending_data := false } }
            "250 Message accepted" with
        | ok s1 => exact ih s1 hrest
        | errored o => rfl
        | panicked o => rfl
      · simp only [monoSessionLoop, sessionLoop]
        rw [if_pos hSend, if_pos hSend, if_neg hdot, if_neg hdot]
        exact ih _ hrest
    · have hS' : ¬ (s.mail.sending_data = true) := hSend
      simp only [monoSessionLoop, sessionLoop]
      rw [if_neg hS', if_neg hS']
      rw [monoExec_agrees ext config svc s (tokenizeLine l) hl.1 hl.2]
      cases hx : execCommand ext config svc s (tokenizeLine l) with
      | ok s1 => exact ih s1 hrest
      | errored o => rfl
      | panicked o => rfl

/-- C10 witness: the amended statement at a concrete AUTH- and QUIT-free
command sequence. -/
theorem sessions_agree_witness :
    monoSessionLoop extB cfgT svcT "id" s0 ["EHLO x\r\n", "MAIL FROM:<a@b>\r\n"]
      = sessionLoop extB cfgT svcT "id" s0 ["EHLO x\r\n", "MAIL FROM:<a@b>\r\n"] :=
  sessions_agree_without_auth_quit extB cfgT svcT "id" ["EHLO x\r\n", "MAIL FROM:<a@b>\r\n"]
    s0 (by decide)

end Eemail
